import Mathlib

/-!
Verification of the BudgetPilot budget calculation engine.

The engine lives in src/services (re-exported through src/hooks/useBudget.ts):
income normalization, obligation aggregation, debt service, feasibility and
safe-to-spend derivation, plus the next-pay-date derivation from
src/services/database.ts.

Modelling conventions:
- JavaScript numbers are modelled as rationals; the source formulas
  (52/12, 26/12, 30.44, round-to-2-decimals) are exact in this model.
- Dates are modelled at day resolution as a JavaScript-style
  (year, 0-based month, day) triple, always normalized to midnight; the
  source normalizes every date it compares with setHours(0,0,0,0).
- Fallible code (the throw in normalizeIncomeToMonthly) is modelled with
  Except.  An unparseable stored next-pay-date string (which in JavaScript
  would poison the day arithmetic with NaN) is modelled as an error,
  since rationals have no NaN; every claim below concerns inputs whose
  next-pay-date is an actual date.
- Warning strings are modelled as structured values carrying the numbers
  the source interpolates into the string.
-/

namespace BudgetPilot

/-! ## Calendar dates, JavaScript style -/

/-- A JavaScript Date at midnight: year, 0-based month (0 = January), day. -/
structure JDate where
  year : ℤ
  month : ℤ
  day : ℤ
deriving DecidableEq, Repr

/-- Gregorian leap-year test (years in use are positive, so emod matches
the JavaScript remainder). -/
def isLeap (y : ℤ) : Bool :=
  (y % 4 == 0 && y % 100 != 0) || y % 400 == 0

/-- Length of month m (0-based, 0 ≤ m ≤ 11) in year y. -/
def monthLength (y m : ℤ) : ℤ :=
  if m = 1 then (if isLeap y then 29 else 28)
  else if m = 3 ∨ m = 5 ∨ m = 8 ∨ m = 10 then 30
  else 31

/-- Number of days of month m of year y, with JavaScript month overflow
(m = 12 is January of the next year).  Source: `new Date(y, m + 1, 0).getDate()`. -/
def daysInMonth (y m : ℤ) : ℤ :=
  monthLength (y + m / 12) (m % 12)

/-- `new Date(y, m, d)` with month overflow normalized (day stays as given;
all call sites below pass 1 ≤ d ≤ daysInMonth). -/
def mkDate (y m d : ℤ) : JDate :=
  ⟨y + m / 12, m % 12, d⟩

/-- Order-embedding key for normalized dates: lexicographic on
(year, month, day); agrees with `Date.getTime()` order for real dates
(month in 0..11, day in 1..31 < 32). -/
def JDate.ord (d : JDate) : ℤ :=
  (d.year * 12 + d.month) * 32 + d.day

/-- Wellformedness of a calendar date (what `new Date()` always yields). -/
def JDate.WF (d : JDate) : Prop :=
  0 ≤ d.month ∧ d.month ≤ 11 ∧ 1 ≤ d.day ∧ d.day ≤ daysInMonth d.year d.month

instance (d : JDate) : Decidable d.WF := by
  unfold JDate.WF; infer_instance

/-- Day number of a date (days-from-civil algorithm); only differences are
used, matching `getTime()` differences divided by 86 400 000 on
midnight-normalized dates. -/
def dayNumber (dt : JDate) : ℤ :=
  let m0 := dt.month + 1
  let y := if m0 ≤ 2 then dt.year - 1 else dt.year
  let era := y / 400
  let yoe := y - era * 400
  let mp := (m0 + 9) % 12
  let doy := (153 * mp + 2) / 5 + dt.day - 1
  let doe := yoe * 365 + yoe / 4 - yoe / 100 + doy
  era * 146097 + doe

/-! ## Data model (src/services/database.ts interfaces) -/

/-- IncomeData.  `nextPayDate` is a string in the source, kept for backward
compatibility; the empty string (falsy) is modelled as `none`. -/
structure IncomeData where
  payFrequency : String
  netPayAmount : ℚ
  nextPayDate : Option JDate
  payDayOfMonth : Option ℤ := none
  biweeklyPayDay1 : Option ℤ := none
  biweeklyPayDay2 : Option ℤ := none
  irregularIncomeEnabled : Bool
  irregularMonthlyAvg : Option ℚ := none
  irregularReliability : Option String := none
deriving DecidableEq, Repr

structure FixedExpense where
  name : String
  amountMonthly : ℚ
  enabled : Bool
deriving DecidableEq, Repr

structure Subscription where
  name : String
  amountMonthly : ℚ
deriving DecidableEq, Repr

structure FlexibleSpending where
  eatingOut : ℚ
  entertainment : ℚ
  shopping : ℚ
  miscBuffer : ℚ
deriving DecidableEq, Repr

structure SavingsGoal where
  enabled : Bool
  savingsMode : Option String := none
  savingsValue : Option ℚ := none
deriving DecidableEq, Repr

structure Debt where
  debtType : String
  balance : ℚ
  minPaymentMonthly : ℚ
  dueDayOfMonth : Option ℤ := none
  payoffGoal : Option String := none
  customPayoffDate : Option JDate := none
deriving DecidableEq, Repr

/-- Monthly totals breakdown of BudgetCalculation. -/
structure Totals where
  fixedMonthly : ℚ
  subsMonthly : ℚ
  flexibleCapsMonthly : ℚ
  savingsMonthly : ℚ
  debtRequiredMonthly : ℚ
  essentialMonthly : ℚ
deriving DecidableEq, Repr

/-- The source pushes a human-readable string carrying shortfall, essential,
and income (each .toFixed(2)); modelled as a structured value carrying the
exact numbers interpolated into it. -/
inductive Warning where
  | notFeasible (shortfall essentialMonthly incomeMonthly : ℚ)
deriving DecidableEq, Repr

/-- BudgetCalculation (src/services/budgetCalculator.ts). -/
structure BudgetCalculation where
  feasible : Bool
  incomeMonthly : ℚ
  totals : Totals
  safeToSpendUntilPayday : ℚ
  safeToSpendToday : ℚ
  daysUntilPayday : ℤ
  nextPayDate : JDate
  warnings : List Warning
deriving DecidableEq, Repr

/-! ## getNextPayDateFromIncome (src/services/database.ts) -/

/-- `clampToMonth(year, month, day)` = min(day, last day of that month). -/
def clampToMonth (y m day : ℤ) : ℤ :=
  min day (daysInMonth y m)

/-- Shared fallback tail of getNextPayDateFromIncome: the stored
next-pay-date if it has not passed, otherwise today.  (The source also
re-checks `monthly && payDayOfMonth != null` inside this tail before
returning today; at this point that condition is always false — the
identical guard at the top of the function already returned — so the
recursive call there is dead code and is not modelled.) -/
def nextPayFallback (income : IncomeData) (today : JDate) : JDate :=
  match income.nextPayDate with
  | some fallback => if today.ord ≤ fallback.ord then fallback else today
  | none => today

/-- getNextPayDateFromIncome.  The source reads `new Date()` internally;
here today is an explicit parameter (the spec treats every run as a pure
function of the inputs and the current date). -/
def getNextPayDateFromIncome (income : IncomeData) (today : JDate) : JDate :=
  let y := today.year
  let m := today.month
  if income.payFrequency = "monthly" then
    match income.payDayOfMonth with
    | some p =>
      let day := clampToMonth y m p
      let thisMonth : JDate := ⟨y, m, day⟩
      if today.ord ≤ thisMonth.ord then thisMonth
      else mkDate y (m + 1) (clampToMonth y (m + 1) p)
    | none => nextPayFallback income today
  else if income.payFrequency = "biweekly" then
    match income.biweeklyPayDay1, income.biweeklyPayDay2 with
    | some d1, some d2 =>
      let c1 : JDate := ⟨y, m, clampToMonth y m d1⟩
      let c2 : JDate := ⟨y, m, clampToMonth y m d2⟩
      -- candidates.sort by time, then first candidate ≥ today
      let lo := if c1.ord ≤ c2.ord then c1 else c2
      let hi := if c1.ord ≤ c2.ord then c2 else c1
      if today.ord ≤ lo.ord then lo
      else if today.ord ≤ hi.ord then hi
      else
        -- all candidates passed: earliest clamped candidate of next month
        let n1 := mkDate y (m + 1) (clampToMonth y (m + 1) d1)
        let n2 := mkDate y (m + 1) (clampToMonth y (m + 1) d2)
        if n1.ord ≤ n2.ord then n1 else n2
    | _, _ => nextPayFallback income today
  else nextPayFallback income today

/-! ## Budget calculation service (src/services/budgetCalculator.ts) -/

/-- Round to 2 decimals: `Math.round(x * 100) / 100`.  Mathlib round is
⌊x + 1/2⌋, exactly JavaScript Math.round (half toward +infinity). -/
def round2 (x : ℚ) : ℚ :=
  (round (x * 100) : ℤ) / 100

/-- Reliability lookup `{low: 0.5, medium: 0.75, high: 1.0}[r] || 0.75`. -/
def reliabilityMultiplier (r : String) : ℚ :=
  if r = "low" then 0.5
  else if r = "medium" then 0.75
  else if r = "high" then 1.0
  else 0.75

/-- normalizeIncomeToMonthly: base frequency conversion (throwing on an
unknown frequency) plus reliability-weighted irregular income. -/
def normalizeIncomeToMonthly (payFrequency : String) (netPayAmount : ℚ)
    (irregularMonthlyAvg : ℚ) (irregularReliability : String) :
    Except String ℚ :=
  match (if payFrequency = "weekly" then .ok (netPayAmount * 52 / 12)
         else if payFrequency = "biweekly" then .ok (netPayAmount * 26 / 12)
         else if payFrequency = "monthly" then .ok netPayAmount
         else .error ("Unknown pay frequency: " ++ payFrequency) :
         Except String ℚ) with
  | .error e => .error e
  | .ok baseMonthly =>
    .ok (baseMonthly + irregularMonthlyAvg * reliabilityMultiplier irregularReliability)

/-- calculateDebtPaymentForGoal (simplified in the source: no APR). -/
def calculateDebtPaymentForGoal (balance : ℚ) (months : ℤ) : ℚ :=
  if months ≤ 0 then balance else balance / (months : ℚ)

/-- getPayoffMonths: resolve a payoff goal to a month count. -/
def getPayoffMonths (goal : Option String) (goalDate : Option JDate)
    (today : JDate) : Option ℤ :=
  match goal with
  | none => none
  | some g =>
    if g = "ASAP" then some 1
    else if g = "6mo" then some 6
    else if g = "12mo" then some 12
    else if g = "24mo" then some 24
    else if g = "customDate" then
      match goalDate with
      | some gd =>
        some (max 1 ⌊((dayNumber gd - dayNumber today : ℤ) : ℚ) / (30.44 : ℚ)⌋)
      | none => none
    else none

/-- calculateDebtRequiredMonthly: the source sums minimum payments only
("For now, use minimum payments / TODO: Add payoff goal logic if needed"). -/
def calculateDebtRequiredMonthly (debts : List Debt) (_today : JDate) : ℚ :=
  if debts.isEmpty then 0
  else debts.foldl (fun sum debt => sum + debt.minPaymentMonthly) 0

/-- Truthy irregular average used by calculateBudget:
`income.irregularIncomeEnabled && income.irregularMonthlyAvg ? ... : 0`. -/
def irregularAvgOf (income : IncomeData) : ℚ :=
  match income.irregularMonthlyAvg with
  | some a => if income.irregularIncomeEnabled ∧ ¬ a = 0 then a else 0
  | none => 0

/-- Normalized monthly income as computed inside calculateBudget. -/
def incomeMonthlyOf (income : IncomeData) : Except String ℚ :=
  normalizeIncomeToMonthly income.payFrequency income.netPayAmount
    (irregularAvgOf income) (income.irregularReliability.getD "medium")

/-- Sum of enabled fixed expenses. -/
def fixedMonthlyOf (fixedExpenses : List FixedExpense) : ℚ :=
  (fixedExpenses.filter (·.enabled)).foldl (fun sum e => sum + e.amountMonthly) 0

/-- Sum of all subscriptions. -/
def subsMonthlyOf (subscriptions : List Subscription) : ℚ :=
  subscriptions.foldl (fun sum s => sum + s.amountMonthly) 0

/-- Sum of the four flexible category caps (0 when absent). -/
def flexibleCapsMonthlyOf (flexibleSpending : Option FlexibleSpending) : ℚ :=
  match flexibleSpending with
  | some f => f.eatingOut + f.entertainment + f.shopping + f.miscBuffer
  | none => 0

/-- Savings contribution: `savings?.enabled && savings.savingsValue` is a
truthiness test (value present and nonzero), then fixedAmount or percent
of income, else 0. -/
def savingsMonthlyOf (savings : Option SavingsGoal) (incomeMonthly : ℚ) : ℚ :=
  match savings with
  | none => 0
  | some s =>
    match s.savingsValue with
    | none => 0
    | some v =>
      if s.enabled ∧ ¬ v = 0 then
        if s.savingsMode = some "fixedAmount" then v
        else if s.savingsMode = some "percent" then incomeMonthly * (v / 100)
        else 0
      else 0

/-- calculateBudget.  `today` is an explicit parameter (the source reads
`new Date()` and normalizes it to midnight); a missing income profile
yields `none`; the throw inside income normalization propagates as an
error, as does a missing (empty-string) stored next-pay-date, which in
JavaScript would produce NaN day arithmetic not representable here. -/
def calculateBudget (today : JDate) (income : Option IncomeData)
    (fixedExpenses : List FixedExpense) (subscriptions : List Subscription)
    (flexibleSpending : Option FlexibleSpending) (savings : Option SavingsGoal)
    (debts : List Debt) (_balanceNow : ℚ) :
    Except String (Option BudgetCalculation) :=
  match income with
  | none => .ok none
  | some inc =>
    match inc.nextPayDate with
    | none => .error "Invalid Date"
    | some nextPayDate =>
      let daysUntilPayday : ℤ := max 1 (dayNumber nextPayDate - dayNumber today)
      match incomeMonthlyOf inc with
      | .error e => .error e
      | .ok incomeMonthly =>
        let fixedMonthly := fixedMonthlyOf fixedExpenses
        let subsMonthly := subsMonthlyOf subscriptions
        let flexibleCapsMonthly := flexibleCapsMonthlyOf flexibleSpending
        let savingsMonthly := savingsMonthlyOf savings incomeMonthly
        let debtRequiredMonthly := calculateDebtRequiredMonthly debts today
        let essentialMonthly :=
          fixedMonthly + subsMonthly + savingsMonthly + debtRequiredMonthly
        let feasible : Bool := decide (essentialMonthly ≤ incomeMonthly)
        let warnings : List Warning :=
          if feasible then []
          else [Warning.notFeasible (essentialMonthly - incomeMonthly)
                  essentialMonthly incomeMonthly]
        let surplusMonthly := incomeMonthly - essentialMonthly
        let daysInMonthAvg : ℚ := 30.44
        let dailyBudget := surplusMonthly / daysInMonthAvg
        let safeToSpendUntilPayday : ℚ :=
          if feasible ∧ 0 < surplusMonthly then
            max 0 (round2 (dailyBudget * (daysUntilPayday : ℚ)))
          else 0
        let safeToSpendToday : ℚ :=
          if feasible ∧ 0 < surplusMonthly then round2 dailyBudget else 0
        .ok (some
          { feasible := feasible
            incomeMonthly := round2 incomeMonthly
            totals :=
              { fixedMonthly := round2 fixedMonthly
                subsMonthly := round2 subsMonthly
                flexibleCapsMonthly := round2 flexibleCapsMonthly
                savingsMonthly := round2 savingsMonthly
                debtRequiredMonthly := round2 debtRequiredMonthly
                essentialMonthly := round2 essentialMonthly }
            safeToSpendUntilPayday := round2 safeToSpendUntilPayday
            safeToSpendToday := safeToSpendToday
            daysUntilPayday := daysUntilPayday
            nextPayDate := nextPayDate
            warnings := warnings })

/-- Essential monthly outflow exactly as summed inside calculateBudget
(fixed + subscriptions + savings + required debt service; flexible caps
are not part of this sum). -/
def essentialMonthlyOf (fx : List FixedExpense) (subs : List Subscription)
    (sav : Option SavingsGoal) (debts : List Debt) (today : JDate)
    (incomeM : ℚ) : ℚ :=
  fixedMonthlyOf fx + subsMonthlyOf subs + savingsMonthlyOf sav incomeM +
    calculateDebtRequiredMonthly debts today

/-! ## Concrete inputs used by witnesses and counterexamples -/

/-- Witness date: 2026-01-26. -/
def wToday : JDate := ⟨2026, 0, 26⟩

/-- Witness next pay date: 2026-02-10 (15 days after wToday). -/
def wNpd : JDate := ⟨2026, 1, 10⟩

/-- Witness income profile: $5000 monthly, no irregular income. -/
def wIncome : IncomeData :=
  { payFrequency := "monthly", netPayAmount := 5000, nextPayDate := some wNpd,
    irregularIncomeEnabled := false }

/-- Witness fixed expenses: $2000 rent, enabled. -/
def wFixed : List FixedExpense := [⟨"Rent", 2000, true⟩]

/-- Witness savings goal: 10 percent of income. -/
def wSavings : SavingsGoal :=
  { enabled := true, savingsMode := some "percent", savingsValue := some 10 }

/-- The budget calculation produced by the witness inputs. -/
def wResult : BudgetCalculation :=
  { feasible := true
    incomeMonthly := 5000
    totals :=
      { fixedMonthly := 2000, subsMonthly := 0, flexibleCapsMonthly := 0,
        savingsMonthly := 500, debtRequiredMonthly := 0, essentialMonthly := 2500 }
    safeToSpendUntilPayday := 123193 / 100
    safeToSpendToday := 8213 / 100
    daysUntilPayday := 15
    nextPayDate := wNpd
    warnings := [] }

/-- A debt with a configured ASAP payoff goal whose minimum payment ($50)
differs from its goal-amortized payment ($1200 in one month). -/
def c3Debt : Debt :=
  { debtType := "Credit Card", balance := 1200, minPaymentMonthly := 50,
    payoffGoal := some "ASAP" }

/-- Savings goal of 200 percent of income (the engine never validates the
percentage range), used to refute unconditional monotonicity. -/
def c9Savings : SavingsGoal :=
  { enabled := true, savingsMode := some "percent", savingsValue := some 200 }

/-- Income profile with net pay -100 (the engine never validates sign). -/
def c9Income1 : IncomeData :=
  { payFrequency := "monthly", netPayAmount := -100, nextPayDate := some wNpd,
    irregularIncomeEnabled := false }

/-- Same profile with the strictly larger net pay -50. -/
def c9Income2 : IncomeData := { c9Income1 with netPayAmount := -50 }

/-- Monthly income profile with net pay 1000, used by the monotonicity
witness. -/
def w9Income : IncomeData :=
  { payFrequency := "monthly", netPayAmount := 1000, nextPayDate := some wNpd,
    irregularIncomeEnabled := false }

/-- Scenario E date: 2025-09-20, the 20th of a 30-day month. -/
def eToday : JDate := ⟨2025, 8, 20⟩

/-- Scenario E income: biweekly pay days 1 and 15. -/
def eIncome : IncomeData :=
  { payFrequency := "biweekly", netPayAmount := 1500, nextPayDate := none,
    biweeklyPayDay1 := some 1, biweeklyPayDay2 := some 15,
    irregularIncomeEnabled := false }

/-! ## Helper lemmas -/

theorem round2_zero : round2 0 = 0 := by
  simp [round2]

theorem round2_nonneg {x : ℚ} (hx : 0 ≤ x) : 0 ≤ round2 x := by
  unfold round2
  have h : (0 : ℤ) ≤ round (x * 100) := by
    rw [round_eq, Int.le_floor]
    push_cast
    linarith
  have h2 : (0 : ℚ) ≤ ((round (x * 100) : ℤ) : ℚ) := by exact_mod_cast h
  linarith

theorem round2_mono {x y : ℚ} (hxy : x ≤ y) : round2 x ≤ round2 y := by
  unfold round2
  have h : round (x * 100) ≤ round (y * 100) := by
    rw [round_eq, round_eq]
    exact Int.floor_le_floor (by linarith)
  have h2 : ((round (x * 100) : ℤ) : ℚ) ≤ ((round (y * 100) : ℤ) : ℚ) := by
    exact_mod_cast h
  linarith

theorem round2_idem (x : ℚ) : round2 (round2 x) = round2 x := by
  unfold round2
  have : ((round (x * 100) : ℤ) : ℚ) / 100 * 100 = ((round (x * 100) : ℤ) : ℚ) := by
    field_simp
  rw [this, round_intCast]

theorem foldl_add_map {α : Type} (f : α → ℚ) (l : List α) (init : ℚ) :
    l.foldl (fun sum a => sum + f a) init = init + (l.map f).sum := by
  induction l generalizing init with
  | nil => simp
  | cons a l ih => simp [ih]; ring

theorem monthLength_bounds (y m : ℤ) :
    28 ≤ monthLength y m ∧ monthLength y m ≤ 31 := by
  unfold monthLength
  split_ifs <;> omega

theorem daysInMonth_bounds (y m : ℤ) :
    28 ≤ daysInMonth y m ∧ daysInMonth y m ≤ 31 := by
  unfold daysInMonth
  exact monthLength_bounds _ _

theorem mkDate_ord (y m d : ℤ) : (mkDate y m d).ord = (y * 12 + m) * 32 + d := by
  simp only [mkDate, JDate.ord]
  omega

/-- Closed form of a successful calculateBudget run: with an income profile
whose next-pay-date parses and whose frequency is recognized, the result is
this record. -/
theorem calculateBudget_ok (today : JDate) (inc : IncomeData) (npd : JDate)
    (incomeM : ℚ) (fx : List FixedExpense) (subs : List Subscription)
    (flex : Option FlexibleSpending) (sav : Option SavingsGoal)
    (debts : List Debt) (bal : ℚ)
    (hd : inc.nextPayDate = some npd)
    (hm : incomeMonthlyOf inc = .ok incomeM) :
    calculateBudget today (some inc) fx subs flex sav debts bal = .ok (some
      { feasible := decide (essentialMonthlyOf fx subs sav debts today incomeM ≤ incomeM)
        incomeMonthly := round2 incomeM
        totals :=
          { fixedMonthly := round2 (fixedMonthlyOf fx)
            subsMonthly := round2 (subsMonthlyOf subs)
            flexibleCapsMonthly := round2 (flexibleCapsMonthlyOf flex)
            savingsMonthly := round2 (savingsMonthlyOf sav incomeM)
            debtRequiredMonthly := round2 (calculateDebtRequiredMonthly debts today)
            essentialMonthly := round2 (essentialMonthlyOf fx subs sav debts today incomeM) }
        safeToSpendUntilPayday := round2
          (if decide (essentialMonthlyOf fx subs sav debts today incomeM ≤ incomeM) = true ∧
              0 < incomeM - essentialMonthlyOf fx subs sav debts today incomeM then
            max 0 (round2
              ((incomeM - essentialMonthlyOf fx subs sav debts today incomeM) / (30.44 : ℚ) *
                ((max 1 (dayNumber npd - dayNumber today) : ℤ) : ℚ)))
          else 0)
        safeToSpendToday :=
          if decide (essentialMonthlyOf fx subs sav debts today incomeM ≤ incomeM) = true ∧
              0 < incomeM - essentialMonthlyOf fx subs sav debts today incomeM then
            round2 ((incomeM - essentialMonthlyOf fx subs sav debts today incomeM) / (30.44 : ℚ))
          else 0
        daysUntilPayday := max 1 (dayNumber npd - dayNumber today)
        nextPayDate := npd
        warnings :=
          if decide (essentialMonthlyOf fx subs sav debts today incomeM ≤ incomeM) = true then []
          else [Warning.notFeasible
                  (essentialMonthlyOf fx subs sav debts today incomeM - incomeM)
                  (essentialMonthlyOf fx subs sav debts today incomeM) incomeM] }) := by
  simp only [calculateBudget, essentialMonthlyOf, hd, hm]

/-! ## Claims -/

/-- C7: with no income profile supplied, the budget calculation returns an
absent result (never a half-computed one), regardless of every other
input. -/
theorem claim7_missing_income (today : JDate) (fx : List FixedExpense)
    (subs : List Subscription) (flex : Option FlexibleSpending)
    (sav : Option SavingsGoal) (debts : List Debt) (bal : ℚ) :
    calculateBudget today none fx subs flex sav debts bal = .ok none := rfl

/-- C5 (failing-input evaluation): the source never rejects a non-positive
net pay amount — normalizing a weekly net pay of -100 succeeds and returns
-1300/3 (about -433.33) instead of failing with InvalidInput, so arithmetic
proceeds on the invalid input.  Only the unknown-frequency half of the
claim is implemented (conjunct 2). -/
theorem claim5_no_validation_of_nonpositive_pay :
    normalizeIncomeToMonthly "weekly" (-100) 0 "medium" = .ok (-1300 / 3) ∧
    normalizeIncomeToMonthly "quarterly" (-100) 0 "medium" =
      .error "Unknown pay frequency: quarterly" := by
  constructor
  · simp +decide [normalizeIncomeToMonthly, reliabilityMultiplier]
    norm_num
  · simp +decide [normalizeIncomeToMonthly]

/-- C3 (counterexample): for a debt with a configured ASAP payoff goal,
balance 1200 and minimum payment 50, the engine's own goal helpers resolve
the goal to 1 month and a goal payment of 1200, yet
calculateDebtRequiredMonthly contributes only the minimum payment 50 —
the configured payoff-goal policy is not applied. -/
theorem claim3_counterexample :
    calculateDebtRequiredMonthly [c3Debt] wToday = 50 ∧
    getPayoffMonths c3Debt.payoffGoal c3Debt.customPayoffDate wToday = some 1 ∧
    calculateDebtPaymentForGoal c3Debt.balance 1 = 1200 ∧
    calculateDebtRequiredMonthly [c3Debt] wToday ≠
      calculateDebtPaymentForGoal c3Debt.balance 1 := by
  refine ⟨?_, ?_, ?_, ?_⟩
  · simp [calculateDebtRequiredMonthly, c3Debt]
  · simp +decide [getPayoffMonths, c3Debt]
  · norm_num [calculateDebtPaymentForGoal, c3Debt]
  · simp [calculateDebtRequiredMonthly, calculateDebtPaymentForGoal, c3Debt]

/-- C3 (amended): for every list of debts and every date, the required
monthly debt service equals the sum of the minimum monthly payments; the
payoff-goal data carried by a debt is ignored by this code path. -/
theorem claim3_amended (debts : List Debt) (today : JDate) :
    calculateDebtRequiredMonthly debts today =
      (debts.map Debt.minPaymentMonthly).sum := by
  unfold calculateDebtRequiredMonthly
  cases debts with
  | nil => simp
  | cons d l => simp [foldl_add_map]

/-- C4: for every positive net pay amount, normalization multiplies by
52/12 (weekly), 26/12 (biweekly) or 1 (monthly), and adds the irregular
average weighted 0.5 / 0.75 / 1.0 by reliability tier, 0.75 when the tier
is absent; the irregular average counts only when irregular income is
enabled. -/
theorem claim4_income_normalization (amount avg : ℚ) (rel : String)
    (inc : IncomeData) (hpos : 0 < amount) :
    normalizeIncomeToMonthly "weekly" amount avg rel =
      .ok (amount * 52 / 12 + avg * reliabilityMultiplier rel) ∧
    normalizeIncomeToMonthly "biweekly" amount avg rel =
      .ok (amount * 26 / 12 + avg * reliabilityMultiplier rel) ∧
    normalizeIncomeToMonthly "monthly" amount avg rel =
      .ok (amount + avg * reliabilityMultiplier rel) ∧
    reliabilityMultiplier "low" = 0.5 ∧
    reliabilityMultiplier "medium" = 0.75 ∧
    reliabilityMultiplier "high" = 1 ∧
    (inc.irregularReliability = none →
      reliabilityMultiplier (inc.irregularReliability.getD "medium") = 0.75) ∧
    (inc.irregularIncomeEnabled = true →
      irregularAvgOf inc = inc.irregularMonthlyAvg.getD 0) ∧
    (inc.irregularIncomeEnabled = false → irregularAvgOf inc = 0) := by
  refine ⟨rfl, rfl, rfl, rfl, rfl, ?_, ?_, ?_, ?_⟩
  · simp +decide [reliabilityMultiplier]
    norm_num
  · intro h
    rw [h]
    rfl
  · intro h
    unfold irregularAvgOf
    cases havg : inc.irregularMonthlyAvg with
    | none => rfl
    | some a =>
      by_cases ha : a = 0
      · simp [h, ha]
      · simp [h, ha]
  · intro h
    unfold irregularAvgOf
    cases havg : inc.irregularMonthlyAvg with
    | none => rfl
    | some a => simp [h]

/-- C4 (witness): the theorem applied at net pay 100, irregular average 40,
medium reliability. -/
theorem claim4_witness :
    (0 : ℚ) < 100 ∧
    normalizeIncomeToMonthly "weekly" 100 40 "medium" =
      .ok (100 * 52 / 12 + 40 * reliabilityMultiplier "medium") :=
  ⟨by norm_num, (claim4_income_normalization 100 40 "medium" wIncome (by norm_num)).1⟩

/-! ## Witness scenario evaluation (scenario A of the spec) -/

theorem wIncomeMonthly : incomeMonthlyOf wIncome = .ok 5000 := by
  simp +decide [incomeMonthlyOf, wIncome, normalizeIncomeToMonthly, irregularAvgOf,
    reliabilityMultiplier]

theorem wEssential :
    essentialMonthlyOf wFixed [] (some wSavings) [] wToday 5000 = 2500 := by
  have hf : fixedMonthlyOf wFixed = 2000 := by norm_num [fixedMonthlyOf, wFixed]
  have hsv : savingsMonthlyOf (some wSavings) 5000 = 500 := by
    simp +decide [savingsMonthlyOf, wSavings]
    norm_num
  simp [essentialMonthlyOf, hf, hsv, subsMonthlyOf, calculateDebtRequiredMonthly]
  norm_num

theorem wResult_eval :
    calculateBudget wToday (some wIncome) wFixed [] none (some wSavings) [] 0 =
      .ok (some wResult) := by
  have h := calculateBudget_ok wToday wIncome wNpd 5000 wFixed [] none (some wSavings) [] 0
    rfl wIncomeMonthly
  have hf : fixedMonthlyOf wFixed = 2000 := by norm_num [fixedMonthlyOf, wFixed]
  have hsv : savingsMonthlyOf (some wSavings) 5000 = 500 := by
    simp +decide [savingsMonthlyOf, wSavings]
    norm_num
  have hdn : (max 1 (dayNumber wNpd - dayNumber wToday)) = 15 := by decide
  rw [h, wEssential, hf, hsv, hdn]
  have r1 : round2 ((5000 - 2500 : ℚ) / 30.44) = 8213 / 100 := by
    rw [round2, round_eq]; norm_num
  have r2 : round2 ((5000 - 2500 : ℚ) / 30.44 * ((15 : ℤ) : ℚ)) = 123193 / 100 := by
    rw [round2, round_eq]; norm_num
  have r3 : ((0 : ℚ) ⊔ (123193 / 100 : ℚ)) = 123193 / 100 := by
    rw [max_eq_right]; norm_num
  have r4 : round2 (123193 / 100 : ℚ) = 123193 / 100 := by
    rw [round2, round_eq]; norm_num
  simp only [decide_eq_true_eq]
  rw [if_pos, if_pos, if_pos]
  rotate_left
  · norm_num
  · norm_num
  · norm_num
  rw [r1, r2, r3, r4]
  simp [wResult, wNpd, subsMonthlyOf, flexibleCapsMonthlyOf, calculateDebtRequiredMonthly]
  norm_num [round2, round_eq]

/-- C1: with an income profile present (and a computable result), the
feasible flag is true exactly when fixed + subscriptions + savings +
required debt service is at most the normalized monthly income; the four
flexible-spending caps play no role in the flag (changing them never
changes it). -/
theorem claim1_feasibility (today : JDate) (inc : IncomeData) (npd : JDate)
    (incomeM : ℚ) (fx : List FixedExpense) (subs : List Subscription)
    (flex : Option FlexibleSpending) (sav : Option SavingsGoal)
    (debts : List Debt) (bal : ℚ) (r : BudgetCalculation)
    (hd : inc.nextPayDate = some npd)
    (hm : incomeMonthlyOf inc = .ok incomeM)
    (h : calculateBudget today (some inc) fx subs flex sav debts bal = .ok (some r)) :
    (r.feasible = true ↔
      fixedMonthlyOf fx + subsMonthlyOf subs + savingsMonthlyOf sav incomeM +
        calculateDebtRequiredMonthly debts today ≤ incomeM) ∧
    (∀ (flex2 : Option FlexibleSpending) (r2 : BudgetCalculation),
      calculateBudget today (some inc) fx subs flex2 sav debts bal = .ok (some r2) →
      r2.feasible = r.feasible) := by
  have hexp := calculateBudget_ok today inc npd incomeM fx subs flex sav debts bal hd hm
  rw [hexp] at h
  simp only [Except.ok.injEq, Option.some.injEq] at h
  subst h
  constructor
  · simp [essentialMonthlyOf]
  · intro flex2 r2 h2
    have hexp2 := calculateBudget_ok today inc npd incomeM fx subs flex2 sav debts bal hd hm
    rw [hexp2] at h2
    simp only [Except.ok.injEq, Option.some.injEq] at h2
    subst h2
    rfl

/-- C1 (witness): scenario A — income 5000, essentials 2500, the flag
matches the inequality. -/
theorem claim1_witness :
    wResult.feasible = true ↔
      fixedMonthlyOf wFixed + subsMonthlyOf [] + savingsMonthlyOf (some wSavings) 5000 +
        calculateDebtRequiredMonthly [] wToday ≤ 5000 :=
  (claim1_feasibility wToday wIncome wNpd 5000 wFixed [] none (some wSavings) [] 0 wResult
    rfl wIncomeMonthly wResult_eval).1

/-- C2: with an income profile present, when feasible with positive
surplus both safe-to-spend outputs follow the surplus / 30.44 proration
(per day, and times the days until payday); when infeasible both are
exactly 0; in every case both are nonnegative, and daysUntilPayday is
max(1, whole-day difference of the midnight-normalized dates).
(safeToSpendPerDay of the spec is the safeToSpendToday field.) -/
theorem claim2_safe_to_spend (today : JDate) (inc : IncomeData) (npd : JDate)
    (incomeM : ℚ) (fx : List FixedExpense) (subs : List Subscription)
    (flex : Option FlexibleSpending) (sav : Option SavingsGoal)
    (debts : List Debt) (bal : ℚ) (r : BudgetCalculation)
    (hd : inc.nextPayDate = some npd)
    (hm : incomeMonthlyOf inc = .ok incomeM)
    (h : calculateBudget today (some inc) fx subs flex sav debts bal = .ok (some r)) :
    (essentialMonthlyOf fx subs sav debts today incomeM ≤ incomeM →
      0 < incomeM - essentialMonthlyOf fx subs sav debts today incomeM →
      r.safeToSpendToday =
        round2 ((incomeM - essentialMonthlyOf fx subs sav debts today incomeM) / (30.44 : ℚ)) ∧
      r.safeToSpendUntilPayday =
        round2 ((incomeM - essentialMonthlyOf fx subs sav debts today incomeM) / (30.44 : ℚ) *
          ((max 1 (dayNumber npd - dayNumber today) : ℤ) : ℚ))) ∧
    (¬ essentialMonthlyOf fx subs sav debts today incomeM ≤ incomeM →
      r.safeToSpendToday = 0 ∧ r.safeToSpendUntilPayday = 0) ∧
    0 ≤ r.safeToSpendToday ∧ 0 ≤ r.safeToSpendUntilPayday ∧
    r.daysUntilPayday = max 1 (dayNumber npd - dayNumber today) := by
  have hexp := calculateBudget_ok today inc npd incomeM fx subs flex sav debts bal hd hm
  rw [hexp] at h
  simp only [Except.ok.injEq, Option.some.injEq] at h
  subst h
  simp only [decide_eq_true_eq]
  refine ⟨?_, ?_, ?_, ?_, trivial⟩
  · intro h1 h2
    constructor
    · split
      · rfl
      · rename_i hc
        exact absurd ⟨h1, h2⟩ hc
    · split
      · have hP : 0 ≤ (incomeM - essentialMonthlyOf fx subs sav debts today incomeM) /
            (30.44 : ℚ) * ((max 1 (dayNumber npd - dayNumber today) : ℤ) : ℚ) := by
          apply mul_nonneg
          · apply div_nonneg (le_of_lt h2)
            norm_num
          · have h3 : (1 : ℤ) ≤ max 1 (dayNumber npd - dayNumber today) := le_max_left 1 _
            have h4 : (1 : ℚ) ≤ ((max 1 (dayNumber npd - dayNumber today) : ℤ) : ℚ) := by
              exact_mod_cast h3
            linarith
        rw [max_eq_right (round2_nonneg hP), round2_idem]
      · rename_i hc
        exact absurd ⟨h1, h2⟩ hc
  · intro h1
    constructor
    · split
      · rename_i hc
        exact absurd hc.1 h1
      · rfl
    · split
      · rename_i hc
        exact absurd hc.1 h1
      · exact round2_zero
  · split
    · rename_i hc
      apply round2_nonneg
      apply div_nonneg (le_of_lt hc.2)
      norm_num
    · exact le_refl 0
  · apply round2_nonneg
    split
    · exact le_max_left 0 _
    · exact le_refl 0

/-- C2 (witness): scenario A — surplus 2500, safeToSpendToday is the
rounded daily proration, both outputs nonnegative. -/
theorem claim2_witness :
    wResult.safeToSpendToday =
      round2 ((5000 - essentialMonthlyOf wFixed [] (some wSavings) [] wToday 5000) /
        (30.44 : ℚ)) ∧
    0 ≤ wResult.safeToSpendToday ∧ 0 ≤ wResult.safeToSpendUntilPayday := by
  have hc := claim2_safe_to_spend wToday wIncome wNpd 5000 wFixed [] none (some wSavings)
    [] 0 wResult rfl wIncomeMonthly wResult_eval
  refine ⟨(hc.1 ?_ ?_).1, hc.2.2.1, hc.2.2.2.1⟩
  · rw [wEssential]; norm_num
  · rw [wEssential]; norm_num

/-- C6: with an income profile present, the warnings list holds exactly
one warning, carrying the shortfall essential - income, precisely when the
plan is infeasible, and is empty when the plan is feasible. -/
theorem claim6_warnings (today : JDate) (inc : IncomeData) (npd : JDate)
    (incomeM : ℚ) (fx : List FixedExpense) (subs : List Subscription)
    (flex : Option FlexibleSpending) (sav : Option SavingsGoal)
    (debts : List Debt) (bal : ℚ) (r : BudgetCalculation)
    (hd : inc.nextPayDate = some npd)
    (hm : incomeMonthlyOf inc = .ok incomeM)
    (h : calculateBudget today (some inc) fx subs flex sav debts bal = .ok (some r)) :
    (r.feasible = false →
      r.warnings = [Warning.notFeasible
        (essentialMonthlyOf fx subs sav debts today incomeM - incomeM)
        (essentialMonthlyOf fx subs sav debts today incomeM) incomeM]) ∧
    (r.feasible = true → r.warnings = []) ∧
    (Warning.notFeasible (essentialMonthlyOf fx subs sav debts today incomeM - incomeM)
        (essentialMonthlyOf fx subs sav debts today incomeM) incomeM ∈ r.warnings ↔
      r.feasible = false) := by
  have hexp := calculateBudget_ok today inc npd incomeM fx subs flex sav debts bal hd hm
  rw [hexp] at h
  simp only [Except.ok.injEq, Option.some.injEq] at h
  subst h
  by_cases hE : essentialMonthlyOf fx subs sav debts today incomeM ≤ incomeM
  · refine ⟨?_, ?_, ?_⟩ <;> simp [hE]
  · refine ⟨?_, ?_, ?_⟩ <;> simp [hE]

/-- C6 (witness): scenario A is feasible and its warnings list is empty. -/
theorem claim6_witness : wResult.warnings = [] :=
  (claim6_warnings wToday wIncome wNpd 5000 wFixed [] none (some wSavings) [] 0 wResult
    rfl wIncomeMonthly wResult_eval).2.1 rfl

/-! ## Monotonicity analysis (C9) -/

/-- Normalized income is an increasing affine function of netPayAmount for
every recognized frequency, and an error otherwise. -/
theorem incomeMonthlyOf_netPay (inc : IncomeData) :
    (∃ c K, 0 < c ∧ ∀ x : ℚ,
      incomeMonthlyOf { inc with netPayAmount := x } = .ok (c * x + K)) ∨
    (∀ x : ℚ, ∃ e, incomeMonthlyOf { inc with netPayAmount := x } = .error e) := by
  have hirr : ∀ (f : String) (x : ℚ),
      irregularAvgOf { inc with payFrequency := f, netPayAmount := x } = irregularAvgOf inc :=
    fun f x => rfl
  by_cases hw : inc.payFrequency = "weekly"
  · left
    refine ⟨52 / 12, irregularAvgOf inc *
      reliabilityMultiplier (inc.irregularReliability.getD "medium"), by norm_num,
      fun x => ?_⟩
    simp [incomeMonthlyOf, normalizeIncomeToMonthly, hw, hirr]
    ring
  · by_cases hb : inc.payFrequency = "biweekly"
    · left
      refine ⟨26 / 12, irregularAvgOf inc *
        reliabilityMultiplier (inc.irregularReliability.getD "medium"), by norm_num,
        fun x => ?_⟩
      simp [incomeMonthlyOf, normalizeIncomeToMonthly, hb, hw, hirr]
      ring
    · by_cases hmn : inc.payFrequency = "monthly"
      · left
        refine ⟨1, irregularAvgOf inc *
          reliabilityMultiplier (inc.irregularReliability.getD "medium"), by norm_num,
          fun x => ?_⟩
        simp [incomeMonthlyOf, normalizeIncomeToMonthly, hmn, hw, hb, hirr]
      · right
        intro x
        refine ⟨"Unknown pay frequency: " ++ inc.payFrequency, ?_⟩
        simp [incomeMonthlyOf, normalizeIncomeToMonthly, hw, hb, hmn]

/-- The savings contribution is either constant in income or a
percent-of-income share. -/
theorem savingsMonthlyOf_cases (sav : Option SavingsGoal) :
    (∃ k : ℚ, ∀ I : ℚ, savingsMonthlyOf sav I = k) ∨
    (∃ s v, sav = some s ∧ s.savingsMode = some "percent" ∧ s.savingsValue = some v ∧
      ∀ I : ℚ, savingsMonthlyOf sav I = I * (v / 100)) := by
  match sav with
  | none => exact Or.inl ⟨0, fun I => rfl⟩
  | some s =>
    match hval : s.savingsValue with
    | none => exact Or.inl ⟨0, fun I => by simp [savingsMonthlyOf, hval]⟩
    | some v =>
      by_cases henv : s.enabled = true ∧ ¬ v = 0
      · by_cases hfix : s.savingsMode = some "fixedAmount"
        · exact Or.inl ⟨v, fun I => by simp [savingsMonthlyOf, hval, henv, hfix]⟩
        · by_cases hperc : s.savingsMode = some "percent"
          · exact Or.inr ⟨s, v, rfl, hperc, hval,
              fun I => by simp [savingsMonthlyOf, hval, henv, hfix, hperc]⟩
          · exact Or.inl ⟨0, fun I => by simp [savingsMonthlyOf, hval, henv, hfix, hperc]⟩
      · exact Or.inl ⟨0, fun I => by
          simp only [savingsMonthlyOf, hval]
          rw [if_neg (by simpa using henv)]⟩

/-- The safe-to-spend-today expression is monotone in the surplus. -/
theorem stdField_mono (Ia Ib Ea Eb : ℚ) (hS : Ia - Ea ≤ Ib - Eb) :
    (if Ea ≤ Ia ∧ 0 < Ia - Ea then round2 ((Ia - Ea) / (30.44 : ℚ)) else 0) ≤
    (if Eb ≤ Ib ∧ 0 < Ib - Eb then round2 ((Ib - Eb) / (30.44 : ℚ)) else 0) := by
  split
  · rename_i hca
    rw [if_pos ⟨by linarith [hca.2], by linarith [hca.2]⟩]
    apply round2_mono
    have h1 : (0 : ℚ) < 30.44 := by norm_num
    rw [div_le_div_iff₀ h1 h1]
    nlinarith [hca.2]
  · split
    · rename_i hcb
      apply round2_nonneg
      exact div_nonneg (le_of_lt hcb.2) (by norm_num)
    · exact le_refl 0

/-- C9 (amended): increasing netPayAmount with all other inputs fixed
never decreases safeToSpendToday, provided a percent-mode savings goal
keeps its percentage at most 100 (the source never validates the range;
above 100 the claim fails — see the counterexample). -/
theorem claim9_amended (today : JDate) (inc : IncomeData) (a b : ℚ)
    (fx : List FixedExpense) (subs : List Subscription)
    (flex : Option FlexibleSpending) (sav : Option SavingsGoal)
    (debts : List Debt) (bal : ℚ) (r r2 : BudgetCalculation)
    (hsav : ∀ s v, sav = some s → s.savingsMode = some "percent" →
      s.savingsValue = some v → v ≤ 100)
    (hab : a < b)
    (h : calculateBudget today (some { inc with netPayAmount := a })
      fx subs flex sav debts bal = .ok (some r))
    (h2 : calculateBudget today (some { inc with netPayAmount := b })
      fx subs flex sav debts bal = .ok (some r2)) :
    r.safeToSpendToday ≤ r2.safeToSpendToday := by
  cases hnd : inc.nextPayDate with
  | none =>
    have hda : ({ inc with netPayAmount := a } : IncomeData).nextPayDate = none := hnd
    simp [calculateBudget, hda, hnd] at h
  | some npd =>
    rcases incomeMonthlyOf_netPay inc with ⟨c, K, hc, hI⟩ | herr
    · have hda : ({ inc with netPayAmount := a } : IncomeData).nextPayDate = some npd := hnd
      have hdb : ({ inc with netPayAmount := b } : IncomeData).nextPayDate = some npd := hnd
      rw [calculateBudget_ok today _ npd (c * a + K) fx subs flex sav debts bal hda (hI a)] at h
      rw [calculateBudget_ok today _ npd (c * b + K) fx subs flex sav debts bal hdb (hI b)] at h2
      simp only [Except.ok.injEq, Option.some.injEq] at h h2
      subst h
      subst h2
      simp only [decide_eq_true_eq]
      have hinc : c * a + K ≤ c * b + K := by nlinarith
      have hS : (c * a + K) - essentialMonthlyOf fx subs sav debts today (c * a + K) ≤
          (c * b + K) - essentialMonthlyOf fx subs sav debts today (c * b + K) := by
        unfold essentialMonthlyOf
        rcases savingsMonthlyOf_cases sav with ⟨k, hk⟩ | ⟨s, v, hs, hmode, hval, hv⟩
        · rw [hk, hk]
          linarith
        · rw [hv, hv]
          have hv100 := hsav s v hs hmode hval
          have hfact : 0 ≤ ((c * b + K) - (c * a + K)) * (1 - v / 100) :=
            mul_nonneg (by linarith) (by linarith)
          nlinarith [hfact]
      exact stdField_mono (c * a + K) (c * b + K) _ _ hS
    · obtain ⟨e, he⟩ := herr a
      have hda : ({ inc with netPayAmount := a } : IncomeData).nextPayDate = some npd := hnd
      have he2 : incomeMonthlyOf { inc with netPayAmount := a, nextPayDate := some npd } =
          Except.error e := he
      simp [calculateBudget, hda, hnd, he2] at h

/-- C9 (counterexample): with a percent-mode savings value of 200 (never
validated by the engine) and net pay raised from -100 to -50 (also never
validated), safeToSpendToday falls from 3.29 to 1.64 — increasing
netPayAmount with all other inputs fixed decreases safeToSpendToday. -/
theorem claim9_counterexample :
    (calculateBudget wToday (some c9Income1) [] [] none (some c9Savings) [] 0).map
        (Option.map BudgetCalculation.safeToSpendToday) = .ok (some (329 / 100)) ∧
    (calculateBudget wToday (some c9Income2) [] [] none (some c9Savings) [] 0).map
        (Option.map BudgetCalculation.safeToSpendToday) = .ok (some (164 / 100)) ∧
    c9Income1.netPayAmount < c9Income2.netPayAmount ∧
    ¬ ((329 : ℚ) / 100 ≤ 164 / 100) := by
  have hE1 : essentialMonthlyOf [] [] (some c9Savings) [] wToday (-100) = -200 := by
    simp +decide [essentialMonthlyOf, fixedMonthlyOf, subsMonthlyOf, savingsMonthlyOf,
      c9Savings, calculateDebtRequiredMonthly]
    norm_num
  have hE2 : essentialMonthlyOf [] [] (some c9Savings) [] wToday (-50) = -100 := by
    simp +decide [essentialMonthlyOf, fixedMonthlyOf, subsMonthlyOf, savingsMonthlyOf,
      c9Savings, calculateDebtRequiredMonthly]
    norm_num
  have hm1 : incomeMonthlyOf c9Income1 = .ok (-100) := by
    simp +decide [incomeMonthlyOf, c9Income1, normalizeIncomeToMonthly, irregularAvgOf,
      reliabilityMultiplier]
  have hm2 : incomeMonthlyOf c9Income2 = .ok (-50) := by
    simp +decide [incomeMonthlyOf, c9Income2, c9Income1, normalizeIncomeToMonthly,
      irregularAvgOf, reliabilityMultiplier]
  have h1 := calculateBudget_ok wToday c9Income1 wNpd (-100) [] [] none (some c9Savings)
    [] 0 rfl hm1
  have h2 := calculateBudget_ok wToday c9Income2 wNpd (-50) [] [] none (some c9Savings)
    [] 0 rfl hm2
  refine ⟨?_, ?_, by norm_num [c9Income1, c9Income2], by norm_num⟩
  · rw [h1]
    simp only [Except.map, Option.map, hE1, decide_eq_true_eq]
    rw [if_pos (by norm_num)]
    rw [round2, round_eq]
    norm_num
  · rw [h2]
    simp only [Except.map, Option.map, hE2, decide_eq_true_eq]
    rw [if_pos (by norm_num)]
    rw [round2, round_eq]
    norm_num

/-- Result of the monotonicity witness run at net pay 1000. -/
def w9R1 : BudgetCalculation :=
  { feasible := true
    incomeMonthly := 1000
    totals :=
      { fixedMonthly := 0, subsMonthly := 0, flexibleCapsMonthly := 0,
        savingsMonthly := 0, debtRequiredMonthly := 0, essentialMonthly := 0 }
    safeToSpendUntilPayday := 49277 / 100
    safeToSpendToday := 657 / 20
    daysUntilPayday := 15
    nextPayDate := wNpd
    warnings := [] }

/-- Result of the monotonicity witness run at net pay 2000. -/
def w9R2 : BudgetCalculation :=
  { feasible := true
    incomeMonthly := 2000
    totals :=
      { fixedMonthly := 0, subsMonthly := 0, flexibleCapsMonthly := 0,
        savingsMonthly := 0, debtRequiredMonthly := 0, essentialMonthly := 0 }
    safeToSpendUntilPayday := 19711 / 20
    safeToSpendToday := 657 / 10
    daysUntilPayday := 15
    nextPayDate := wNpd
    warnings := [] }

theorem w9R1_eval :
    calculateBudget wToday (some { w9Income with netPayAmount := 1000 }) [] [] none none
      [] 0 = .ok (some w9R1) := by
  have hm : incomeMonthlyOf { w9Income with netPayAmount := 1000 } = .ok 1000 := by
    simp +decide [incomeMonthlyOf, w9Income, normalizeIncomeToMonthly, irregularAvgOf,
      reliabilityMultiplier]
  have hE : essentialMonthlyOf [] [] none [] wToday 1000 = 0 := by
    simp [essentialMonthlyOf, fixedMonthlyOf, subsMonthlyOf, savingsMonthlyOf,
      calculateDebtRequiredMonthly]
  have h := calculateBudget_ok wToday _ wNpd 1000 [] [] none none [] 0 rfl hm
  have hdn : (max 1 (dayNumber wNpd - dayNumber wToday)) = 15 := by decide
  rw [h, hE, hdn]
  have r1 : round2 ((1000 - 0 : ℚ) / 30.44) = 657 / 20 := by
    rw [round2, round_eq]; norm_num
  have r2 : round2 ((1000 - 0 : ℚ) / 30.44 * ((15 : ℤ) : ℚ)) = 49277 / 100 := by
    rw [round2, round_eq]; norm_num
  have r3 : ((0 : ℚ) ⊔ (49277 / 100 : ℚ)) = 49277 / 100 := by
    rw [max_eq_right]; norm_num
  have r4 : round2 (49277 / 100 : ℚ) = 49277 / 100 := by
    rw [round2, round_eq]; norm_num
  simp only [decide_eq_true_eq]
  rw [if_pos, if_pos, if_pos]
  rotate_left
  · norm_num
  · norm_num
  · norm_num
  rw [r1, r2, r3, r4]
  simp [w9R1, wNpd, fixedMonthlyOf, subsMonthlyOf, flexibleCapsMonthlyOf, savingsMonthlyOf,
    calculateDebtRequiredMonthly]
  norm_num [round2, round_eq]

theorem w9R2_eval :
    calculateBudget wToday (some { w9Income with netPayAmount := 2000 }) [] [] none none
      [] 0 = .ok (some w9R2) := by
  have hm : incomeMonthlyOf { w9Income with netPayAmount := 2000 } = .ok 2000 := by
    simp +decide [incomeMonthlyOf, w9Income, normalizeIncomeToMonthly, irregularAvgOf,
      reliabilityMultiplier]
  have hE : essentialMonthlyOf [] [] none [] wToday 2000 = 0 := by
    simp [essentialMonthlyOf, fixedMonthlyOf, subsMonthlyOf, savingsMonthlyOf,
      calculateDebtRequiredMonthly]
  have h := calculateBudget_ok wToday _ wNpd 2000 [] [] none none [] 0 rfl hm
  have hdn : (max 1 (dayNumber wNpd - dayNumber wToday)) = 15 := by decide
  rw [h, hE, hdn]
  have r1 : round2 ((2000 - 0 : ℚ) / 30.44) = 657 / 10 := by
    rw [round2, round_eq]; norm_num
  have r2 : round2 ((2000 - 0 : ℚ) / 30.44 * ((15 : ℤ) : ℚ)) = 19711 / 20 := by
    rw [round2, round_eq]; norm_num
  have r3 : ((0 : ℚ) ⊔ (19711 / 20 : ℚ)) = 19711 / 20 := by
    rw [max_eq_right]; norm_num
  have r4 : round2 (19711 / 20 : ℚ) = 19711 / 20 := by
    rw [round2, round_eq]; norm_num
  simp only [decide_eq_true_eq]
  rw [if_pos, if_pos, if_pos]
  rotate_left
  · norm_num
  · norm_num
  · norm_num
  rw [r1, r2, r3, r4]
  simp [w9R2, wNpd, fixedMonthlyOf, subsMonthlyOf, flexibleCapsMonthlyOf, savingsMonthlyOf,
    calculateDebtRequiredMonthly]
  norm_num [round2, round_eq]

/-- C9 (witness): the amended monotonicity theorem applied at net pay
1000 against 2000, no savings goal. -/
theorem claim9_witness : w9R1.safeToSpendToday ≤ w9R2.safeToSpendToday :=
  claim9_amended wToday w9Income 1000 2000 [] [] none none [] 0 w9R1 w9R2
    (fun s _v hs _ _ => Option.noConfusion hs) (by norm_num) w9R1_eval w9R2_eval

/-! ## Next-pay-date analysis (C8, C10) -/

/-- This month's candidate pay day, clamped to the month's length. -/
def monthCandidate (today : JDate) (p : ℤ) : JDate :=
  ⟨today.year, today.month, clampToMonth today.year today.month p⟩

/-- Next month's candidate pay day, clamped to that month's length. -/
def nextMonthCandidate (today : JDate) (p : ℤ) : JDate :=
  mkDate today.year (today.month + 1) (clampToMonth today.year (today.month + 1) p)

theorem nextPayFallback_ge (income : IncomeData) (today : JDate) :
    today.ord ≤ (nextPayFallback income today).ord := by
  unfold nextPayFallback
  split
  · split
    · assumption
    · exact le_refl _
  · exact le_refl _

theorem nextPayFallback_some (income : IncomeData) (today s : JDate)
    (h : income.nextPayDate = some s) :
    (today.ord ≤ s.ord → nextPayFallback income today = s) ∧
    (s.ord < today.ord → nextPayFallback income today = today) := by
  unfold nextPayFallback
  rw [h]
  dsimp only
  constructor
  · intro hle
    rw [if_pos hle]
  · intro hlt
    rw [if_neg (not_le.mpr hlt)]

theorem nextPayFallback_none (income : IncomeData) (today : JDate)
    (h : income.nextPayDate = none) :
    nextPayFallback income today = today := by
  unfold nextPayFallback
  rw [h]

/-- Rolling to next month always lands strictly after any wellformed date
of the current month, for any candidate day ≥ 1. -/
theorem roll_ord_gt (today : JDate) (hWF : today.WF) (p : ℤ) (hp : 1 ≤ p) :
    today.ord < (nextMonthCandidate today p).ord := by
  obtain ⟨hm0, hm1, hd1, hd2⟩ := hWF
  have h1 := daysInMonth_bounds today.year today.month
  have h2 := daysInMonth_bounds today.year (today.month + 1)
  unfold nextMonthCandidate clampToMonth
  rw [mkDate_ord]
  unfold JDate.ord at *
  rcases le_total p (daysInMonth today.year (today.month + 1)) with h | h
  · rw [min_eq_left h]
    omega
  · rw [min_eq_right h]
    omega

/-- Behaviour of the sorted-scan-then-roll candidate picker (the body of
the biweekly branch): with a candidate not yet passed, the result is the
earliest candidate that is ≥ today; with both passed, the earliest of the
two next-month candidates. -/
theorem pick_core (today c1 c2 n1 n2 res : JDate)
    (hres : res = if today.ord ≤ (if c1.ord ≤ c2.ord then c1 else c2).ord
        then (if c1.ord ≤ c2.ord then c1 else c2)
        else if today.ord ≤ (if c1.ord ≤ c2.ord then c2 else c1).ord
          then (if c1.ord ≤ c2.ord then c2 else c1)
          else if n1.ord ≤ n2.ord then n1 else n2) :
    ((today.ord ≤ c1.ord ∨ today.ord ≤ c2.ord) →
      ((res = c1 ∨ res = c2) ∧ today.ord ≤ res.ord ∧
       (today.ord ≤ c1.ord → res.ord ≤ c1.ord) ∧
       (today.ord ≤ c2.ord → res.ord ≤ c2.ord))) ∧
    (c1.ord < today.ord → c2.ord < today.ord →
      ((res = n1 ∨ res = n2) ∧ res.ord ≤ n1.ord ∧ res.ord ≤ n2.ord)) := by
  subst hres
  split_ifs <;>
    refine ⟨fun hor => ⟨?_, ?_, fun ht1 => ?_, fun ht2 => ?_⟩,
      fun hl1 hl2 => ⟨?_, ?_, ?_⟩⟩ <;>
    first
      | (left; rfl)
      | (right; rfl)
      | omega

theorem getNext_monthly_some (income : IncomeData) (today : JDate) (p : ℤ)
    (hmf : income.payFrequency = "monthly") (hpd : income.payDayOfMonth = some p) :
    getNextPayDateFromIncome income today =
      if today.ord ≤ (monthCandidate today p).ord then monthCandidate today p
      else nextMonthCandidate today p := by
  simp only [getNextPayDateFromIncome]
  rw [if_pos hmf, hpd]
  rfl

theorem getNext_monthly_noday (income : IncomeData) (today : JDate)
    (hmf : income.payFrequency = "monthly") (hpd : income.payDayOfMonth = none) :
    getNextPayDateFromIncome income today = nextPayFallback income today := by
  simp only [getNextPayDateFromIncome]
  rw [if_pos hmf, hpd]

theorem getNext_biweekly_some (income : IncomeData) (today : JDate) (d1 d2 : ℤ)
    (hbf : income.payFrequency = "biweekly")
    (hd1 : income.biweeklyPayDay1 = some d1) (hd2 : income.biweeklyPayDay2 = some d2) :
    getNextPayDateFromIncome income today =
      (if today.ord ≤ ((if (monthCandidate today d1).ord ≤ (monthCandidate today d2).ord
            then monthCandidate today d1 else monthCandidate today d2)).ord
        then (if (monthCandidate today d1).ord ≤ (monthCandidate today d2).ord
            then monthCandidate today d1 else monthCandidate today d2)
        else if today.ord ≤ ((if (monthCandidate today d1).ord ≤ (monthCandidate today d2).ord
            then monthCandidate today d2 else monthCandidate today d1)).ord
          then (if (monthCandidate today d1).ord ≤ (monthCandidate today d2).ord
              then monthCandidate today d2 else monthCandidate today d1)
          else if (nextMonthCandidate today d1).ord ≤ (nextMonthCandidate today d2).ord
            then nextMonthCandidate today d1 else nextMonthCandidate today d2) := by
  simp only [getNextPayDateFromIncome]
  rw [if_neg (show ¬ income.payFrequency = "monthly" by rw [hbf]; decide)]
  rw [if_pos hbf, hd1, hd2]
  rfl

theorem getNext_other (income : IncomeData) (today : JDate)
    (h1 : ¬ income.payFrequency = "monthly") (h2 : ¬ income.payFrequency = "biweekly") :
    getNextPayDateFromIncome income today = nextPayFallback income today := by
  simp only [getNextPayDateFromIncome]
  rw [if_neg h1, if_neg h2]

theorem getNext_biweekly_noday (income : IncomeData) (today : JDate)
    (hbf : income.payFrequency = "biweekly")
    (h : income.biweeklyPayDay1 = none ∨ income.biweeklyPayDay2 = none) :
    getNextPayDateFromIncome income today = nextPayFallback income today := by
  simp only [getNextPayDateFromIncome]
  rw [if_neg (show ¬ income.payFrequency = "monthly" by rw [hbf]; decide)]
  rw [if_pos hbf]
  rcases h with h | h
  · rw [h]
  · rw [h]
    cases income.biweeklyPayDay1 <;> rfl

/-- With no recurring rule configured (no monthly pay day; no complete
biweekly pay-day pair), the function reduces to the stored-date fallback. -/
theorem getNext_norule (income : IncomeData) (today : JDate)
    (hno1 : ¬ (income.payFrequency = "monthly" ∧ income.payDayOfMonth.isSome = true))
    (hno2 : ¬ (income.payFrequency = "biweekly" ∧ income.biweeklyPayDay1.isSome = true ∧
      income.biweeklyPayDay2.isSome = true)) :
    getNextPayDateFromIncome income today = nextPayFallback income today := by
  by_cases hmf : income.payFrequency = "monthly"
  · cases hpd : income.payDayOfMonth with
    | some p => exact absurd ⟨hmf, by rw [hpd]; rfl⟩ hno1
    | none => exact getNext_monthly_noday income today hmf hpd
  · by_cases hbf : income.payFrequency = "biweekly"
    · cases hd1 : income.biweeklyPayDay1 with
      | none => exact getNext_biweekly_noday income today hbf (Or.inl hd1)
      | some d1 =>
        cases hd2 : income.biweeklyPayDay2 with
        | none => exact getNext_biweekly_noday income today hbf (Or.inr hd2)
        | some d2 => exact absurd ⟨hbf, by rw [hd1]; rfl, by rw [hd2]; rfl⟩ hno2
    · exact getNext_other income today hmf hbf

/-- C10: the derived next pay date never lies before today (for wellformed
dates and pay-day values ≥ 1, the documented 1..31 range), and when no
recurring rule applies and the stored next-pay-date is absent or passed,
it is exactly today.  Dates carry no time component in this model, so
every value is midnight-normalized by construction. -/
theorem claim10_next_pay_not_before_today (income : IncomeData) (today : JDate)
    (hWF : today.WF)
    (hp : ∀ p, income.payDayOfMonth = some p → 1 ≤ p)
    (hb1 : ∀ p, income.biweeklyPayDay1 = some p → 1 ≤ p)
    (hb2 : ∀ p, income.biweeklyPayDay2 = some p → 1 ≤ p) :
    today.ord ≤ (getNextPayDateFromIncome income today).ord ∧
    (¬ (income.payFrequency = "monthly" ∧ income.payDayOfMonth.isSome = true) →
     ¬ (income.payFrequency = "biweekly" ∧ income.biweeklyPayDay1.isSome = true ∧
        income.biweeklyPayDay2.isSome = true) →
     (income.nextPayDate = none ∨ ∃ d, income.nextPayDate = some d ∧ d.ord < today.ord) →
     getNextPayDateFromIncome income today = today) := by
  constructor
  · by_cases hmf : income.payFrequency = "monthly"
    · cases hpd : income.payDayOfMonth with
      | some p =>
        rw [getNext_monthly_some income today p hmf hpd]
        split
        · rename_i hc
          exact hc
        · exact le_of_lt (roll_ord_gt today hWF p (hp p hpd))
      | none =>
        rw [getNext_monthly_noday income today hmf hpd]
        exact nextPayFallback_ge income today
    · by_cases hbf : income.payFrequency = "biweekly"
      · cases hd1 : income.biweeklyPayDay1 with
        | none =>
          rw [getNext_biweekly_noday income today hbf (Or.inl hd1)]
          exact nextPayFallback_ge income today
        | some d1 =>
          cases hd2 : income.biweeklyPayDay2 with
          | none =>
            rw [getNext_biweekly_noday income today hbf (Or.inr hd2)]
            exact nextPayFallback_ge income today
          | some d2 =>
            rw [getNext_biweekly_some income today d1 d2 hbf hd1 hd2]
            have hpick := pick_core today (monthCandidate today d1) (monthCandidate today d2)
              (nextMonthCandidate today d1) (nextMonthCandidate today d2) _ rfl
            rcases le_or_lt today.ord (monthCandidate today d1).ord with h1 | h1
            · exact (hpick.1 (Or.inl h1)).2.1
            · rcases le_or_lt today.ord (monthCandidate today d2).ord with h2 | h2
              · exact (hpick.1 (Or.inr h2)).2.1
              · obtain ⟨hmem, hle1, hle2⟩ := hpick.2 h1 h2
                have hg1 := roll_ord_gt today hWF d1 (hb1 d1 hd1)
                have hg2 := roll_ord_gt today hWF d2 (hb2 d2 hd2)
                rcases hmem with hm | hm <;> rw [hm] <;> omega
      · rw [getNext_other income today hmf hbf]
        exact nextPayFallback_ge income today
  · intro hno1 hno2 hstale
    rw [getNext_norule income today hno1 hno2]
    rcases hstale with h | ⟨d, hd, hlt⟩
    · exact nextPayFallback_none income today h
    · exact (nextPayFallback_some income today d hd).2 hlt

/-- C10 (witness): scenario E inputs — the derived date (2025-10-01) is
not before today (2025-09-20). -/
theorem claim10_witness :
    eToday.ord ≤ (getNextPayDateFromIncome eIncome eToday).ord :=
  (claim10_next_pay_not_before_today eIncome eToday (by decide)
    (fun p hp => by simp [eIncome] at hp)
    (fun p hp => by simp [eIncome] at hp; omega)
    (fun p hp => by simp [eIncome] at hp; omega)).1

/-- C8: the recurring-rule derivation of the next pay date.  Monthly rule:
the clamped current-month candidate when it is ≥ today, else the clamped
next-month candidate.  Biweekly rule: the earliest of the two clamped
current-month candidates that is ≥ today, rolling to the earliest clamped
next-month candidate when both have passed.  No rule: the stored
next-pay-date when present and not passed, else today.  In particular,
scenario E (biweekly days 1 and 15, today the 20th of 30-day September
2025) yields October 1st. -/
theorem claim8_next_pay_rule (income : IncomeData) (today : JDate) (hWF : today.WF) :
    (∀ p, income.payFrequency = "monthly" → income.payDayOfMonth = some p →
      (today.ord ≤ (monthCandidate today p).ord →
        getNextPayDateFromIncome income today = monthCandidate today p) ∧
      ((monthCandidate today p).ord < today.ord →
        getNextPayDateFromIncome income today = nextMonthCandidate today p)) ∧
    (∀ d1 d2, income.payFrequency = "biweekly" → income.biweeklyPayDay1 = some d1 →
      income.biweeklyPayDay2 = some d2 →
      ((today.ord ≤ (monthCandidate today d1).ord ∨
        today.ord ≤ (monthCandidate today d2).ord) →
        ((getNextPayDateFromIncome income today = monthCandidate today d1 ∨
          getNextPayDateFromIncome income today = monthCandidate today d2) ∧
         today.ord ≤ (getNextPayDateFromIncome income today).ord ∧
         (today.ord ≤ (monthCandidate today d1).ord →
           (getNextPayDateFromIncome income today).ord ≤ (monthCandidate today d1).ord) ∧
         (today.ord ≤ (monthCandidate today d2).ord →
           (getNextPayDateFromIncome income today).ord ≤ (monthCandidate today d2).ord))) ∧
      ((monthCandidate today d1).ord < today.ord →
       (monthCandidate today d2).ord < today.ord →
        ((getNextPayDateFromIncome income today = nextMonthCandidate today d1 ∨
          getNextPayDateFromIncome income today = nextMonthCandidate today d2) ∧
         (getNextPayDateFromIncome income today).ord ≤ (nextMonthCandidate today d1).ord ∧
         (getNextPayDateFromIncome income today).ord ≤ (nextMonthCandidate today d2).ord))) ∧
    (¬ (income.payFrequency = "monthly" ∧ income.payDayOfMonth.isSome = true) →
     ¬ (income.payFrequency = "biweekly" ∧ income.biweeklyPayDay1.isSome = true ∧
        income.biweeklyPayDay2.isSome = true) →
     ∀ s, income.nextPayDate = some s →
       (today.ord ≤ s.ord → getNextPayDateFromIncome income today = s) ∧
       (s.ord < today.ord → getNextPayDateFromIncome income today = today)) ∧
    getNextPayDateFromIncome eIncome eToday = (⟨2025, 9, 1⟩ : JDate) := by
  refine ⟨?_, ?_, ?_, by decide⟩
  · intro p hmf hpd
    constructor
    · intro hle
      rw [getNext_monthly_some income today p hmf hpd, if_pos hle]
    · intro hlt
      rw [getNext_monthly_some income today p hmf hpd, if_neg (not_le.mpr hlt)]
  · intro d1 d2 hbf hd1 hd2
    rw [getNext_biweekly_some income today d1 d2 hbf hd1 hd2]
    exact pick_core today (monthCandidate today d1) (monthCandidate today d2)
      (nextMonthCandidate today d1) (nextMonthCandidate today d2) _ rfl
  · intro hno1 hno2 s hs
    rw [getNext_norule income today hno1 hno2]
    exact nextPayFallback_some income today s hs

/-- C8 (witness): scenario E — biweekly days 1 and 15 on 2025-09-20 roll
to 2025-10-01 (month index 9). -/
theorem claim8_witness :
    getNextPayDateFromIncome eIncome eToday = (⟨2025, 9, 1⟩ : JDate) :=
  (claim8_next_pay_rule eIncome eToday (by decide)).2.2.2


end BudgetPilot
